import Mathlib

/-!
Verification of the adsb_xgps bridge (src/main.rs, src/web.rs).

The embedding below translates the pure core of the program:
* `parse_sbs_line` — the SBS record parser/merger (src/main.rs lines 43-126),
* the per-tick selection/formatting logic of `xgps_broadcaster`
  (src/main.rs lines 167-208), and
* the tracked-callsign write path `post_track` (src/web.rs lines 97-107).

Modelling choices:
* Rust `f64` values are embedded as exact decimal numbers `Dec`
  (an integer mantissa over a power-of-ten denominator); `str::parse::<f64>`
  is modelled on the decimal/exponent literal grammar (the `inf`/`nan`
  forms lie outside this rational embedding).
* `Instant` timestamps are embedded as integer timestamps (seconds);
  `Instant::now()` becomes an explicit `now` parameter.
* The `HashMap<String, Aircraft>` registry is embedded as the partial map
  `String → Option Aircraft`; the broadcaster, which iterates `map.values()`,
  takes the iteration snapshot as a `List Aircraft`.
-/

namespace AdsbXgps

/-- Models Rust `line.split(',')`: splits a character list at every comma,
keeping empty segments (so the result always has one more segment than
there are commas). -/
def splitCommaAux : List Char → List Char → List String
  | [], acc => [String.mk acc.reverse]
  | c :: rest, acc =>
    if c = ',' then String.mk acc.reverse :: splitCommaAux rest []
    else splitCommaAux rest (c :: acc)

/-- `line.split(',').collect::<Vec<_>>()` from src/main.rs line 44. -/
def splitFields (s : String) : List String :=
  splitCommaAux s.toList []

/-- Models Rust `str::trim` (the telemetry protocol carries ASCII, so
trimming the ASCII whitespace characters recognised by `Char.isWhitespace`
is an exact model on the protocol's alphabet). -/
def trimStr (s : String) : String :=
  String.mk (((s.toList.dropWhile Char.isWhitespace).reverse.dropWhile Char.isWhitespace).reverse)

/-- Value of a list of ASCII digit characters read in base 10. -/
def digitsToNat (cs : List Char) : Nat :=
  cs.foldl (fun a c => a * 10 + (c.toNat - 48)) 0

/-- Models Rust `str::parse::<u8>()` (src/main.rs line 52): an optional `+`
sign, then one or more ASCII digits, with the value required to fit in
`u8` (≤ 255). A leading `-` or any other character is rejected. -/
def parseU8 (s : String) : Option Nat :=
  let cs := match s.toList with
    | '+' :: rest => rest
    | cs => cs
  if cs.isEmpty then none
  else if cs.all Char.isDigit then
    if digitsToNat cs ≤ 255 then some (digitsToNat cs) else none
  else none

/-- An exact decimal number `num / 10 ^ exp`: the embedding of a parsed
Rust `f64` value. The representation is not normalised; every operation
below is value-based, so this does not matter. -/
structure Dec where
  num : Int
  exp : Nat
deriving DecidableEq

/-- The rational value denoted by a `Dec`. -/
def Dec.toQ (x : Dec) : ℚ :=
  (x.num : ℚ) / 10 ^ x.exp

/-- Shared sign parsing of the `f64` literal grammar: an optional `-` or
`+` before a digit run. Returns whether the sign was negative and the
remaining characters. -/
def parseSign : List Char → Bool × List Char
  | '-' :: rest => (true, rest)
  | '+' :: rest => (false, rest)
  | cs => (false, cs)

/-- Exponent suffix of the `f64` literal grammar: an optional sign and one
or more digits, which must consume the rest of the literal. -/
def parseExpPart (mant : Int) (fracLen : Nat) (cs : List Char) : Option Dec :=
  let p := parseSign cs
  let ed := p.2.takeWhile Char.isDigit
  let rest := p.2.dropWhile Char.isDigit
  if ed.isEmpty || !rest.isEmpty then none
  else if p.1 then some ⟨mant, fracLen + digitsToNat ed⟩
  else some ⟨mant * 10 ^ digitsToNat ed, fracLen⟩

/-- Models Rust `str::parse::<f64>()` on the finite-decimal grammar
`Sign? (Digit+ | Digit+ '.' Digit* | Digit* '.' Digit+) ((e|E) Sign? Digit+)?`,
producing the exact decimal value; the non-finite forms (`inf`, `nan`)
are outside this embedding and rejected. -/
def parseF64 (s : String) : Option Dec :=
  let p := parseSign s.toList
  let ip := p.2.takeWhile Char.isDigit
  let cs2 := p.2.dropWhile Char.isDigit
  let hasDot : Bool := match cs2 with
    | '.' :: _ => true
    | _ => false
  let cs3 := if hasDot then cs2.tail else cs2
  let fp := if hasDot then cs3.takeWhile Char.isDigit else []
  let cs4 := if hasDot then cs3.dropWhile Char.isDigit else cs3
  if ip.isEmpty && fp.isEmpty then none
  else
    let mant : Int := Int.ofNat (digitsToNat ip * 10 ^ fp.length + digitsToNat fp)
    let signed := if p.1 then -mant else mant
    match cs4 with
    | [] => some ⟨signed, fp.length⟩
    | 'e' :: rest => parseExpPart signed fp.length rest
    | 'E' :: rest => parseExpPart signed fp.length rest
    | _ => none

/-- The aggregated per-aircraft state (struct `Aircraft`, src/main.rs
lines 30-38), with `Instant` embedded as an integer timestamp. -/
structure Aircraft where
  callsign : Option String
  latitude : Option Dec
  longitude : Option Dec
  altitude_ft : Option Dec
  ground_speed_kt : Option Dec
  track : Option Dec
  last_updated : Int
deriving DecidableEq

/-- The registry `HashMap<String, Aircraft>` as a partial map. -/
abbrev AircraftMap := String → Option Aircraft

/-- The freshly inserted entry of `or_insert_with` (src/main.rs
lines 64-72): every data field unknown, `last_updated` the current time. -/
def newAircraft (now : Int) : Aircraft :=
  ⟨none, none, none, none, none, none, now⟩

/-- One `if let Ok(v) = cell.trim().parse() { field = Some(v) }` step
(src/main.rs lines 82-96 etc.): overwrite on parse success, keep the
prior value on failure. -/
def setNum (cell : String) (cur : Option Dec) : Option Dec :=
  match parseF64 (trimStr cell) with
  | some v => some v
  | none => cur

/-- The `match msg_type` dispatch of src/main.rs lines 74-123: which
fields of the record are consumed for each report kind. -/
def applyMsg (msg_type : Nat) (fields : List String) (a : Aircraft) : Aircraft :=
  if msg_type = 1 then
    if trimStr (fields.getD 10 "") ≠ "" then
      { a with callsign := some (trimStr (fields.getD 10 "")) }
    else a
  else if msg_type = 2 then
    { a with
      altitude_ft := setNum (fields.getD 11 "") a.altitude_ft
      ground_speed_kt := setNum (fields.getD 12 "") a.ground_speed_kt
      track := setNum (fields.getD 13 "") a.track
      latitude := setNum (fields.getD 14 "") a.latitude
      longitude := setNum (fields.getD 15 "") a.longitude }
  else if msg_type = 3 then
    { a with
      altitude_ft := setNum (fields.getD 11 "") a.altitude_ft
      latitude := setNum (fields.getD 14 "") a.latitude
      longitude := setNum (fields.getD 15 "") a.longitude }
  else if msg_type = 4 then
    { a with
      ground_speed_kt := setNum (fields.getD 12 "") a.ground_speed_kt
      track := setNum (fields.getD 13 "") a.track }
  else if msg_type = 5 ∨ msg_type = 7 then
    { a with altitude_ft := setNum (fields.getD 11 "") a.altitude_ft }
  else a

/-- The trimmed `i`-th cell of the split record. -/
def fieldAt (line : String) (i : Nat) : String :=
  trimStr ((splitFields line).getD i "")

/-- The parser/merger `parse_sbs_line` (src/main.rs lines 43-126).
`Instant::now()` is the explicit `now` argument; the in-place mutation of
the map entry becomes a functional update at the identifier's key. -/
def parse_sbs_line (line : String) (now : Int) (m : AircraftMap) : AircraftMap :=
  if (splitFields line).length < 22 then m
  else if (splitFields line).getD 0 "" ≠ "MSG" then m
  else
    match parseU8 (fieldAt line 1) with
    | none => m
    | some msg_type =>
      if fieldAt line 4 = "" then m
      else
        fun key =>
          if key = fieldAt line 4 then
            some { applyMsg msg_type (splitFields line)
                     ((m (fieldAt line 4)).getD (newAircraft now)) with
                   last_updated := now }
          else m key

/-- The registry entry the record's identifier had before the record was
applied (a fresh all-unknown entry if the identifier was absent — exactly
the `or_insert_with` default). -/
def entryBefore (line : String) (now : Int) (m : AircraftMap) : Aircraft :=
  (m (fieldAt line 4)).getD (newAircraft now)

/-- The registry entry the record's identifier has after the record was
applied. -/
def entryAfter (line : String) (now : Int) (m : AircraftMap) : Aircraft :=
  (parse_sbs_line line now m (fieldAt line 4)).getD (newAircraft now)

/-- ASCII lowercasing of one character, as used by Rust
`eq_ignore_ascii_case`. -/
def asciiLower (c : Char) : Char :=
  if 'A' ≤ c ∧ c ≤ 'Z' then Char.ofNat (c.toNat + 32) else c

/-- Pairwise case-insensitive comparison of two character lists: equal
lengths and equal characters after ASCII lowercasing. -/
def eqIgnoreCaseList : List Char → List Char → Bool
  | [], [] => true
  | c :: cs, d :: ds => (asciiLower c == asciiLower d) && eqIgnoreCaseList cs ds
  | _, _ => false

/-- Models Rust `str::eq_ignore_ascii_case` (src/main.rs line 175). -/
def eqIgnoreAsciiCase (a b : String) : Bool :=
  eqIgnoreCaseList a.toList b.toList

/-- The broadcaster's selection predicate (src/main.rs lines 172-176):
`a.callsign.as_ref().is_some_and(|cs| cs.eq_ignore_ascii_case(&callsign))`. -/
def callsignMatches (tracked : String) (a : Aircraft) : Bool :=
  match a.callsign with
  | some cs => eqIgnoreAsciiCase cs tracked
  | none => false

/-- Exact product of two decimals (multiplying a Rust `f64` by a decimal
constant). -/
def Dec.mul (x y : Dec) : Dec :=
  ⟨x.num * y.num, x.exp + y.exp⟩

/-- `alt_ft * 0.3048` (src/main.rs line 196). -/
def ftToM (x : Dec) : Dec :=
  Dec.mul x ⟨3048, 4⟩

/-- `gs_kt * 0.514444` (src/main.rs line 197). -/
def ktToMs (x : Dec) : Dec :=
  Dec.mul x ⟨514444, 6⟩

/-- `round (x * 10 ^ d)` computed on the exact decimal with integer
arithmetic: the scaled integer behind a fixed-point rendering with `d`
decimals (round half up, i.e. `⌊q + 1/2⌋`). -/
def Dec.roundScaled (x : Dec) (d : Nat) : Int :=
  Int.fdiv (2 * x.num * 10 ^ d + 10 ^ x.exp) (2 * 10 ^ x.exp)

/-- Left-pads a digit string with zeros to width `e`. -/
def padZeros (e : Nat) (s : String) : String :=
  if s.length < e then String.mk (List.replicate (e - s.length) '0') ++ s else s

/-- Renders the decimal `n / 10 ^ e` with exactly `e` digits after the
point (none when `e = 0`). -/
def fmtParts (n : Int) (e : Nat) : String :=
  let sign := if n < 0 then "-" else ""
  if e = 0 then sign ++ toString n.natAbs
  else sign ++ toString (n.natAbs / 10 ^ e) ++ "." ++ padZeros e (toString (n.natAbs % 10 ^ e))

/-- Rust's `{:.d}` fixed-decimal float formatting on the exact decimal
value. -/
def fmtFixed (d : Nat) (x : Dec) : String :=
  fmtParts (Dec.roundScaled x d) d

/-- Drops trailing decimal zeros: `⟨340, 1⟩` (34.0) becomes `⟨34, 0⟩`. -/
def reduceDecAux : Int → Nat → Dec
  | n, 0 => ⟨n, 0⟩
  | n, e + 1 => if n % 10 = 0 then reduceDecAux (n / 10) e else ⟨n, e + 1⟩

/-- Rust's `{}` `Display` formatting of an `f64` (shortest decimal form,
no trailing zeros, `34.0` printed as `34`), on the exact decimal value. -/
def fmtF64 (x : Dec) : String :=
  fmtParts (reduceDecAux x.num x.exp).num (reduceDecAux x.num x.exp).exp

/-- The fixed device-id literal of the outbound payload. -/
def deviceId : String :=
  "adsb_xgps"

/-- The datagram payload
`format!("XGPSadsb_xgps,{lon},{lat},{alt_m:.1},{track:.2},{gs_ms:.1}")`
(src/main.rs line 199). -/
def xgps_payload (lon lat alt_m track gs_ms : Dec) : String :=
  "XGPS" ++ deviceId ++ "," ++ fmtF64 lon ++ "," ++ fmtF64 lat ++ "," ++
    fmtFixed 1 alt_m ++ "," ++ fmtFixed 2 track ++ "," ++ fmtFixed 1 gs_ms

/-- The tail of one broadcaster tick after an entry was selected
(src/main.rs lines 182-199): skip if stale (older than 5 seconds), skip
if any of the five positional fields is unknown, otherwise produce the
converted, formatted payload. -/
def xgps_send (a : Aircraft) (now : Int) : Option String :=
  if 5 < now - a.last_updated then none
  else
    match a.longitude, a.latitude, a.altitude_ft, a.track, a.ground_speed_kt with
    | some lon, some lat, some alt_ft, some track, some gs_kt =>
      some (xgps_payload lon lat (ftToM alt_ft) track (ktToMs gs_kt))
    | _, _, _, _, _ => none

/-- One tick of `xgps_broadcaster` (src/main.rs lines 167-208): select the
first matching entry of the registry snapshot, then run the
staleness/completeness checks and the send. -/
def xgps_tick (tracked : String) (entries : List Aircraft) (now : Int) : Option String :=
  match entries.find? (callsignMatches tracked) with
  | none => none
  | some a => xgps_send a now

/-- The tracked-callsign write path `post_track` (src/web.rs
lines 97-107): trim the submitted value; an empty result leaves the cell
untouched, otherwise the cell is overwritten with the trimmed value. -/
def post_track (submitted cur : String) : String :=
  if trimStr submitted ≠ "" then trimStr submitted else cur

/-- The six data fields of an entry — everything except `last_updated`. -/
def dataFields (a : Aircraft) :
    Option String × Option Dec × Option Dec × Option Dec × Option Dec × Option Dec :=
  (a.callsign, a.latitude, a.longitude, a.altitude_ft, a.ground_speed_kt, a.track)

/-! Concrete fixtures used to evaluate the definitions at sample inputs. -/

/-- A well-formed kind-2 record: all five numeric cells valid. -/
def wl2 : String :=
  "MSG,2,1,1,ABC123,1,d,t,d,t,CS,100,25,90,51.47,-0.46,,,,,,"

/-- A well-formed kind-8 record: no usable data field. -/
def wl8 : String :=
  "MSG,8,1,1,ABC123,1,d,t,d,t,,,,,,,,,,,,"

/-- A well-formed kind-3 record whose altitude cell does not parse. -/
def wl3 : String :=
  "MSG,3,1,1,ABC123,1,d,t,d,t,,notanum,,,50.0,-6.0,,,,,,"

/-- A malformed record: only five comma-separated fields. -/
def badLine : String :=
  "MSG,1,,,ABC123"

/-- The empty registry. -/
def emptyMap : AircraftMap :=
  fun _ => none

/-- A registry already holding an entry for `ABC123` with a known
callsign. -/
def mW1 : AircraftMap :=
  fun key => if key = "ABC123" then some ⟨some "OLD", none, none, none, none, none, 0⟩ else none

/-- A registry already holding an entry for `ABC123` with a known
altitude. -/
def mW5 : AircraftMap :=
  fun key => if key = "ABC123" then some ⟨none, none, none, some ⟨30000, 0⟩, none, none, 0⟩ else none

/-- A complete entry whose timestamp will be stale at tick time 100. -/
def eC3 : Aircraft :=
  ⟨some "UAL123", some ⟨1, 0⟩, some ⟨1, 0⟩, some ⟨1, 0⟩, some ⟨1, 0⟩, some ⟨1, 0⟩, 0⟩

/-- An entry whose stored callsign is `UAL123` (upper case). -/
def eC6 : Aircraft :=
  ⟨some "UAL123", none, none, none, none, none, 0⟩

/-- A fresh, complete entry for the payload evaluation. -/
def eC7 : Aircraft :=
  ⟨some "UAL123", some ⟨3455, 2⟩, some ⟨-8011, 2⟩, some ⟨10000, 0⟩, some ⟨100, 0⟩,
    some ⟨35905, 2⟩, 100⟩

/-- The payload `xgps_tick` emits for `eC7` at time 100. -/
def pC7 : String :=
  "XGPSadsb_xgps,-80.11,34.55,3048.0,359.05,51.4"

/-! Supporting lemmas. -/

/-- `setNum` overwrites on a successful parse. -/
theorem setNum_some (c : String) (cur : Option Dec) (v : Dec)
    (h : parseF64 (trimStr c) = some v) : setNum c cur = some v := by
  unfold setNum
  rw [h]

/-- `setNum` keeps the prior value on a failed parse. -/
theorem setNum_none (c : String) (cur : Option Dec)
    (h : parseF64 (trimStr c) = none) : setNum c cur = cur := by
  unfold setNum
  rw [h]

/-- Applying the same cell twice is the same as applying it once. -/
theorem setNum_setNum (c : String) (cur : Option Dec) :
    setNum c (setNum c cur) = setNum c cur := by
  unfold setNum
  cases h : parseF64 (trimStr c) <;> simp

/-- Any failed discard check makes `parse_sbs_line` return the registry
unchanged. -/
theorem parse_noop (line : String) (now : Int) (m : AircraftMap)
    (h : (splitFields line).length < 22 ∨ (splitFields line).getD 0 "" ≠ "MSG" ∨
      parseU8 (fieldAt line 1) = none ∨ fieldAt line 4 = "") :
    parse_sbs_line line now m = m := by
  unfold parse_sbs_line
  by_cases h22 : (splitFields line).length < 22
  · rw [if_pos h22]
  · rw [if_neg h22]
    by_cases hmsg : (splitFields line).getD 0 "" ≠ "MSG"
    · rw [if_pos hmsg]
    · rw [if_neg hmsg]
      rcases h with h | h | h | h
      · exact absurd h h22
      · exact absurd h hmsg
      · rw [h]
      · cases hpk : parseU8 (fieldAt line 1) <;> simp [h]

/-- On a record passing all four discard checks, `parse_sbs_line` is the
functional update of the registry at the record's identifier. -/
theorem parse_wf_eq (line : String) (now : Int) (m : AircraftMap) (k : Nat)
    (h22 : ¬ (splitFields line).length < 22)
    (hmsg : (splitFields line).getD 0 "" = "MSG")
    (hk : parseU8 (fieldAt line 1) = some k)
    (hid : ¬ fieldAt line 4 = "") :
    parse_sbs_line line now m = fun key =>
      if key = fieldAt line 4 then
        some { applyMsg k (splitFields line) ((m (fieldAt line 4)).getD (newAircraft now)) with
               last_updated := now }
      else m key := by
  unfold parse_sbs_line
  rw [if_neg h22, if_neg (not_not_intro hmsg), hk]
  simp only [if_neg hid]

/-- Under the four checks the entry at the identifier exists afterwards. -/
theorem parse_isSome (line : String) (now : Int) (m : AircraftMap) (k : Nat)
    (h22 : ¬ (splitFields line).length < 22)
    (hmsg : (splitFields line).getD 0 "" = "MSG")
    (hk : parseU8 (fieldAt line 1) = some k)
    (hid : ¬ fieldAt line 4 = "") :
    (parse_sbs_line line now m (fieldAt line 4)).isSome = true := by
  rw [parse_wf_eq line now m k h22 hmsg hk hid]
  simp

/-- Under the four checks every other key of the registry is untouched. -/
theorem parse_frame (line : String) (now : Int) (m : AircraftMap) (k : Nat)
    (h22 : ¬ (splitFields line).length < 22)
    (hmsg : (splitFields line).getD 0 "" = "MSG")
    (hk : parseU8 (fieldAt line 1) = some k)
    (hid : ¬ fieldAt line 4 = "")
    (key : String) (hkey : key ≠ fieldAt line 4) :
    parse_sbs_line line now m key = m key := by
  rw [parse_wf_eq line now m k h22 hmsg hk hid]
  simp [hkey]

/-- Under the four checks the updated entry is the kind dispatch applied
to the prior entry, restamped with the current time. -/
theorem entryAfter_eq (line : String) (now : Int) (m : AircraftMap) (k : Nat)
    (h22 : ¬ (splitFields line).length < 22)
    (hmsg : (splitFields line).getD 0 "" = "MSG")
    (hk : parseU8 (fieldAt line 1) = some k)
    (hid : ¬ fieldAt line 4 = "") :
    entryAfter line now m =
      { applyMsg k (splitFields line) (entryBefore line now m) with last_updated := now } := by
  unfold entryAfter entryBefore
  rw [parse_wf_eq line now m k h22 hmsg hk hid]
  simp

/-- Under the four checks, the value parsed at the record's identifier. -/
theorem parse_at_id (line : String) (now : Int) (m : AircraftMap) (k : Nat)
    (h22 : ¬ (splitFields line).length < 22)
    (hmsg : (splitFields line).getD 0 "" = "MSG")
    (hk : parseU8 (fieldAt line 1) = some k)
    (hid : ¬ fieldAt line 4 = "") :
    parse_sbs_line line now m (fieldAt line 4) =
      some { applyMsg k (splitFields line) ((m (fieldAt line 4)).getD (newAircraft now)) with
             last_updated := now } := by
  rw [parse_wf_eq line now m k h22 hmsg hk hid]
  simp

/-- Kind-1 dispatch with a non-empty callsign cell. -/
theorem applyMsg_one_of_ne (fields : List String) (a : Aircraft)
    (h : trimStr (fields.getD 10 "") ≠ "") :
    applyMsg 1 fields a = { a with callsign := some (trimStr (fields.getD 10 "")) } := by
  have e : applyMsg 1 fields a =
      if trimStr (fields.getD 10 "") ≠ "" then
        { a with callsign := some (trimStr (fields.getD 10 "")) }
      else a := rfl
  rw [e, if_pos h]

/-- Kind-1 dispatch with an empty callsign cell. -/
theorem applyMsg_one_of_eq (fields : List String) (a : Aircraft)
    (h : trimStr (fields.getD 10 "") = "") :
    applyMsg 1 fields a = a := by
  have e : applyMsg 1 fields a =
      if trimStr (fields.getD 10 "") ≠ "" then
        { a with callsign := some (trimStr (fields.getD 10 "")) }
      else a := rfl
  rw [e, if_neg (not_not_intro h)]

/-- Kind-2 dispatch. -/
theorem applyMsg_two (fields : List String) (a : Aircraft) :
    applyMsg 2 fields a =
      { a with
        altitude_ft := setNum (fields.getD 11 "") a.altitude_ft
        ground_speed_kt := setNum (fields.getD 12 "") a.ground_speed_kt
        track := setNum (fields.getD 13 "") a.track
        latitude := setNum (fields.getD 14 "") a.latitude
        longitude := setNum (fields.getD 15 "") a.longitude } := rfl

/-- Kind-3 dispatch. -/
theorem applyMsg_three (fields : List String) (a : Aircraft) :
    applyMsg 3 fields a =
      { a with
        altitude_ft := setNum (fields.getD 11 "") a.altitude_ft
        latitude := setNum (fields.getD 14 "") a.latitude
        longitude := setNum (fields.getD 15 "") a.longitude } := rfl

/-- Kind-4 dispatch. -/
theorem applyMsg_four (fields : List String) (a : Aircraft) :
    applyMsg 4 fields a =
      { a with
        ground_speed_kt := setNum (fields.getD 12 "") a.ground_speed_kt
        track := setNum (fields.getD 13 "") a.track } := rfl

/-- Kind-5 dispatch. -/
theorem applyMsg_five (fields : List String) (a : Aircraft) :
    applyMsg 5 fields a =
      { a with altitude_ft := setNum (fields.getD 11 "") a.altitude_ft } := rfl

/-- Kind-7 dispatch. -/
theorem applyMsg_seven (fields : List String) (a : Aircraft) :
    applyMsg 7 fields a =
      { a with altitude_ft := setNum (fields.getD 11 "") a.altitude_ft } := rfl

/-- C2: a record failing any of the four discard conditions leaves the
registry completely unchanged — no entry is created, no field of any
entry is modified, no timestamp is refreshed. -/
theorem claim2_discard_no_mutation (line : String) (now : Int) (m : AircraftMap)
    (h : (splitFields line).length < 22 ∨ (splitFields line).getD 0 "" ≠ "MSG" ∨
      parseU8 (fieldAt line 1) = none ∨ fieldAt line 4 = "") :
    parse_sbs_line line now m = m :=
  parse_noop line now m h

/-- Witness for C2 at a concrete five-field line and non-empty registry. -/
theorem claim2_discard_no_mutation_witness : parse_sbs_line badLine 0 mW1 = mW1 :=
  claim2_discard_no_mutation badLine 0 mW1 (Or.inl (by decide))

/-- C4: every record passing the four discard conditions — whatever its
report kind, including kinds that mutate no data field — leaves an entry
for its identifier whose `last_updated` is the current time. -/
theorem claim4_timestamp_refresh (line : String) (now : Int) (m : AircraftMap) (k : Nat)
    (h22 : 22 ≤ (splitFields line).length)
    (hmsg : (splitFields line).getD 0 "" = "MSG")
    (hk : parseU8 (fieldAt line 1) = some k)
    (hid : fieldAt line 4 ≠ "") :
    (parse_sbs_line line now m (fieldAt line 4)).isSome = true ∧
      (entryAfter line now m).last_updated = now := by
  refine ⟨parse_isSome line now m k (not_lt.mpr h22) hmsg hk hid, ?_⟩
  rw [entryAfter_eq line now m k (not_lt.mpr h22) hmsg hk hid]

/-- Witness for C4 at a concrete kind-8 record on the empty registry. -/
theorem claim4_timestamp_refresh_witness :
    (parse_sbs_line wl8 3 emptyMap (fieldAt wl8 4)).isSome = true ∧
      (entryAfter wl8 3 emptyMap).last_updated = 3 :=
  claim4_timestamp_refresh wl8 3 emptyMap 8 (by decide) (by decide) (by decide) (by decide)

/-- C9: the tracked-callsign write path stores the trimmed submission,
except that an empty trimmed value leaves the cell unchanged. -/
theorem claim9_track_write (submitted cur : String) :
    (trimStr submitted = "" → post_track submitted cur = cur) ∧
    (trimStr submitted ≠ "" → post_track submitted cur = trimStr submitted) := by
  constructor
  · intro h
    simp [post_track, h]
  · intro h
    simp [post_track, h]

/-- Witness for C9: a whitespace-only submission is ignored, a padded one
is stored trimmed. -/
theorem claim9_track_write_witness :
    post_track "   " "KEEP" = "KEEP" ∧ post_track " NEW12 " "OLD" = "NEW12" := by
  refine ⟨(claim9_track_write "   " "KEEP").1 (by decide), ?_⟩
  exact ((claim9_track_write " NEW12 " "OLD").2 (by decide)).trans (by decide)

/-- C10: under the single length guard (at least 22 fields) every fixed
index the parser reads (all are at most 15) is in bounds: the checked
access returns `some`, and it is the value the parser's defaulted access
uses. -/
theorem claim10_index_safety (line : String) (i : Nat)
    (h22 : 22 ≤ (splitFields line).length) (hi : i ≤ 15) :
    ∃ v, (splitFields line)[i]? = some v ∧ (splitFields line).getD i "" = v := by
  have hlt : i < (splitFields line).length := by omega
  refine ⟨(splitFields line)[i], List.getElem?_eq_getElem hlt, ?_⟩
  rw [List.getD_eq_getElem?_getD, List.getElem?_eq_getElem hlt]
  rfl

/-- Witness for C10 at the largest index the parser reads. -/
theorem claim10_index_safety_witness : ((splitFields wl2)[15]?).isSome = true := by
  obtain ⟨v, hv, -⟩ := claim10_index_safety wl2 15 (by decide) (by decide)
  rw [hv]
  rfl

/-- C1: for a well-formed record whose report kind is in {1,2,3,4,5,7},
the parser sets exactly the fields of the kind dispatch table on the
identifier's entry (kind 1: the trimmed field 10 as callsign when
non-empty; kind 2: fields 11-15; kind 3: fields 11, 14, 15; kind 4:
fields 12, 13; kinds 5 and 7: field 11), each targeted field taking the
parsed cell value, leaves every other previously-known field of that
entry unchanged, and leaves every other registry key untouched. -/
theorem claim1_dispatch_table (line : String) (now : Int) (m : AircraftMap) (k : Nat)
    (h22 : 22 ≤ (splitFields line).length)
    (hmsg : (splitFields line).getD 0 "" = "MSG")
    (hk : parseU8 (fieldAt line 1) = some k)
    (hid : fieldAt line 4 ≠ "") :
    (parse_sbs_line line now m (fieldAt line 4)).isSome = true ∧
    (∀ key, key ≠ fieldAt line 4 → parse_sbs_line line now m key = m key) ∧
    (entryAfter line now m).last_updated = now ∧
    (k = 1 →
      (fieldAt line 10 ≠ "" → (entryAfter line now m).callsign = some (fieldAt line 10)) ∧
      (fieldAt line 10 = "" →
        (entryAfter line now m).callsign = (entryBefore line now m).callsign) ∧
      (entryAfter line now m).latitude = (entryBefore line now m).latitude ∧
      (entryAfter line now m).longitude = (entryBefore line now m).longitude ∧
      (entryAfter line now m).altitude_ft = (entryBefore line now m).altitude_ft ∧
      (entryAfter line now m).ground_speed_kt = (entryBefore line now m).ground_speed_kt ∧
      (entryAfter line now m).track = (entryBefore line now m).track) ∧
    (k = 2 →
      (∀ v, parseF64 (fieldAt line 11) = some v →
        (entryAfter line now m).altitude_ft = some v) ∧
      (∀ v, parseF64 (fieldAt line 12) = some v →
        (entryAfter line now m).ground_speed_kt = some v) ∧
      (∀ v, parseF64 (fieldAt line 13) = some v → (entryAfter line now m).track = some v) ∧
      (∀ v, parseF64 (fieldAt line 14) = some v → (entryAfter line now m).latitude = some v) ∧
      (∀ v, parseF64 (fieldAt line 15) = some v → (entryAfter line now m).longitude = some v) ∧
      (entryAfter line now m).callsign = (entryBefore line now m).callsign) ∧
    (k = 3 →
      (∀ v, parseF64 (fieldAt line 11) = some v →
        (entryAfter line now m).altitude_ft = some v) ∧
      (∀ v, parseF64 (fieldAt line 14) = some v → (entryAfter line now m).latitude = some v) ∧
      (∀ v, parseF64 (fieldAt line 15) = some v → (entryAfter line now m).longitude = some v) ∧
      (entryAfter line now m).callsign = (entryBefore line now m).callsign ∧
      (entryAfter line now m).ground_speed_kt = (entryBefore line now m).ground_speed_kt ∧
      (entryAfter line now m).track = (entryBefore line now m).track) ∧
    (k = 4 →
      (∀ v, parseF64 (fieldAt line 12) = some v →
        (entryAfter line now m).ground_speed_kt = some v) ∧
      (∀ v, parseF64 (fieldAt line 13) = some v → (entryAfter line now m).track = some v) ∧
      (entryAfter line now m).callsign = (entryBefore line now m).callsign ∧
      (entryAfter line now m).latitude = (entryBefore line now m).latitude ∧
      (entryAfter line now m).longitude = (entryBefore line now m).longitude ∧
      (entryAfter line now m).altitude_ft = (entryBefore line now m).altitude_ft) ∧
    (k = 5 ∨ k = 7 →
      (∀ v, parseF64 (fieldAt line 11) = some v →
        (entryAfter line now m).altitude_ft = some v) ∧
      (entryAfter line now m).callsign = (entryBefore line now m).callsign ∧
      (entryAfter line now m).latitude = (entryBefore line now m).latitude ∧
      (entryAfter line now m).longitude = (entryBefore line now m).longitude ∧
      (entryAfter line now m).ground_speed_kt = (entryBefore line now m).ground_speed_kt ∧
      (entryAfter line now m).track = (entryBefore line now m).track) := by
  have h22' := not_lt.mpr h22
  have hE := entryAfter_eq line now m k h22' hmsg hk hid
  refine ⟨parse_isSome line now m k h22' hmsg hk hid,
    fun key hkey => parse_frame line now m k h22' hmsg hk hid key hkey, ?_, ?_, ?_, ?_, ?_, ?_⟩
  · rw [hE]
  · rintro rfl
    by_cases h10 : fieldAt line 10 = ""
    · rw [hE, applyMsg_one_of_eq _ _ h10]
      exact ⟨fun hne => absurd h10 hne, fun _ => rfl, rfl, rfl, rfl, rfl, rfl⟩
    · rw [hE, applyMsg_one_of_ne _ _ h10]
      exact ⟨fun _ => rfl, fun he => absurd he h10, rfl, rfl, rfl, rfl, rfl⟩
  · rintro rfl
    rw [hE, applyMsg_two]
    exact ⟨fun v hv => setNum_some _ _ _ hv, fun v hv => setNum_some _ _ _ hv,
      fun v hv => setNum_some _ _ _ hv, fun v hv => setNum_some _ _ _ hv,
      fun v hv => setNum_some _ _ _ hv, rfl⟩
  · rintro rfl
    rw [hE, applyMsg_three]
    exact ⟨fun v hv => setNum_some _ _ _ hv, fun v hv => setNum_some _ _ _ hv,
      fun v hv => setNum_some _ _ _ hv, rfl, rfl, rfl⟩
  · rintro rfl
    rw [hE, applyMsg_four]
    exact ⟨fun v hv => setNum_some _ _ _ hv, fun v hv => setNum_some _ _ _ hv,
      rfl, rfl, rfl, rfl⟩
  · rintro (rfl | rfl)
    · rw [hE, applyMsg_five]
      exact ⟨fun v hv => setNum_some _ _ _ hv, rfl, rfl, rfl, rfl, rfl⟩
    · rw [hE, applyMsg_seven]
      exact ⟨fun v hv => setNum_some _ _ _ hv, rfl, rfl, rfl, rfl, rfl⟩

/-- Witness for C1 at a concrete kind-2 record over a registry already
holding a callsign for the identifier. -/
theorem claim1_dispatch_table_witness :
    (entryAfter wl2 5 mW1).altitude_ft = some ⟨100, 0⟩ ∧
    (entryAfter wl2 5 mW1).ground_speed_kt = some ⟨25, 0⟩ ∧
    (entryAfter wl2 5 mW1).track = some ⟨90, 0⟩ ∧
    (entryAfter wl2 5 mW1).latitude = some ⟨5147, 2⟩ ∧
    (entryAfter wl2 5 mW1).longitude = some ⟨-46, 2⟩ ∧
    (entryAfter wl2 5 mW1).callsign = some "OLD" ∧
    parse_sbs_line wl2 5 mW1 "XYZ" = mW1 "XYZ" := by
  obtain ⟨-, hframe, -, -, h2, -, -, -⟩ :=
    claim1_dispatch_table wl2 5 mW1 2 (by decide) (by decide) (by decide) (by decide)
  obtain ⟨halt, hgs, htrk, hlat, hlon, hcs⟩ := h2 rfl
  exact ⟨halt _ (by decide), hgs _ (by decide), htrk _ (by decide), hlat _ (by decide),
    hlon _ (by decide), hcs.trans (by decide), hframe "XYZ" (by decide)⟩

/-- C5: in a well-formed record, a targeted numeric cell that fails to
parse leaves that field at its prior value (or unknown), while every
targeted cell of the same record that does parse is still applied —
a single cell's failure never discards the line. -/
theorem claim5_partial_field_failure (line : String) (now : Int) (m : AircraftMap) (k : Nat)
    (h22 : 22 ≤ (splitFields line).length)
    (hmsg : (splitFields line).getD 0 "" = "MSG")
    (hk : parseU8 (fieldAt line 1) = some k)
    (hid : fieldAt line 4 ≠ "") :
    (k = 2 →
      (parseF64 (fieldAt line 11) = none →
        (entryAfter line now m).altitude_ft = (entryBefore line now m).altitude_ft) ∧
      (∀ v, parseF64 (fieldAt line 11) = some v →
        (entryAfter line now m).altitude_ft = some v) ∧
      (parseF64 (fieldAt line 12) = none →
        (entryAfter line now m).ground_speed_kt = (entryBefore line now m).ground_speed_kt) ∧
      (∀ v, parseF64 (fieldAt line 12) = some v →
        (entryAfter line now m).ground_speed_kt = some v) ∧
      (parseF64 (fieldAt line 13) = none →
        (entryAfter line now m).track = (entryBefore line now m).track) ∧
      (∀ v, parseF64 (fieldAt line 13) = some v → (entryAfter line now m).track = some v) ∧
      (parseF64 (fieldAt line 14) = none →
        (entryAfter line now m).latitude = (entryBefore line now m).latitude) ∧
      (∀ v, parseF64 (fieldAt line 14) = some v → (entryAfter line now m).latitude = some v) ∧
      (parseF64 (fieldAt line 15) = none →
        (entryAfter line now m).longitude = (entryBefore line now m).longitude) ∧
      (∀ v, parseF64 (fieldAt line 15) = some v →
        (entryAfter line now m).longitude = some v)) ∧
    (k = 3 →
      (parseF64 (fieldAt line 11) = none →
        (entryAfter line now m).altitude_ft = (entryBefore line now m).altitude_ft) ∧
      (∀ v, parseF64 (fieldAt line 11) = some v →
        (entryAfter line now m).altitude_ft = some v) ∧
      (parseF64 (fieldAt line 14) = none →
        (entryAfter line now m).latitude = (entryBefore line now m).latitude) ∧
      (∀ v, parseF64 (fieldAt line 14) = some v → (entryAfter line now m).latitude = some v) ∧
      (parseF64 (fieldAt line 15) = none →
        (entryAfter line now m).longitude = (entryBefore line now m).longitude) ∧
      (∀ v, parseF64 (fieldAt line 15) = some v →
        (entryAfter line now m).longitude = some v)) ∧
    (k = 4 →
      (parseF64 (fieldAt line 12) = none →
        (entryAfter line now m).ground_speed_kt = (entryBefore line now m).ground_speed_kt) ∧
      (∀ v, parseF64 (fieldAt line 12) = some v →
        (entryAfter line now m).ground_speed_kt = some v) ∧
      (parseF64 (fieldAt line 13) = none →
        (entryAfter line now m).track = (entryBefore line now m).track) ∧
      (∀ v, parseF64 (fieldAt line 13) = some v → (entryAfter line now m).track = some v)) ∧
    (k = 5 ∨ k = 7 →
      (parseF64 (fieldAt line 11) = none →
        (entryAfter line now m).altitude_ft = (entryBefore line now m).altitude_ft) ∧
      (∀ v, parseF64 (fieldAt line 11) = some v →
        (entryAfter line now m).altitude_ft = some v)) := by
  have h22' := not_lt.mpr h22
  have hE := entryAfter_eq line now m k h22' hmsg hk hid
  refine ⟨?_, ?_, ?_, ?_⟩
  · rintro rfl
    rw [hE, applyMsg_two]
    exact ⟨fun hn => setNum_none _ _ hn, fun v hv => setNum_some _ _ _ hv,
      fun hn => setNum_none _ _ hn, fun v hv => setNum_some _ _ _ hv,
      fun hn => setNum_none _ _ hn, fun v hv => setNum_some _ _ _ hv,
      fun hn => setNum_none _ _ hn, fun v hv => setNum_some _ _ _ hv,
      fun hn => setNum_none _ _ hn, fun v hv => setNum_some _ _ _ hv⟩
  · rintro rfl
    rw [hE, applyMsg_three]
    exact ⟨fun hn => setNum_none _ _ hn, fun v hv => setNum_some _ _ _ hv,
      fun hn => setNum_none _ _ hn, fun v hv => setNum_some _ _ _ hv,
      fun hn => setNum_none _ _ hn, fun v hv => setNum_some _ _ _ hv⟩
  · rintro rfl
    rw [hE, applyMsg_four]
    exact ⟨fun hn => setNum_none _ _ hn, fun v hv => setNum_some _ _ _ hv,
      fun hn => setNum_none _ _ hn, fun v hv => setNum_some _ _ _ hv⟩
  · rintro (rfl | rfl)
    · rw [hE, applyMsg_five]
      exact ⟨fun hn => setNum_none _ _ hn, fun v hv => setNum_some _ _ _ hv⟩
    · rw [hE, applyMsg_seven]
      exact ⟨fun hn => setNum_none _ _ hn, fun v hv => setNum_some _ _ _ hv⟩

/-- Witness for C5 at a concrete kind-3 record whose altitude cell is
non-numeric while its position cells parse: the prior altitude survives
and the position is applied. -/
theorem claim5_partial_field_failure_witness :
    (entryAfter wl3 7 mW5).altitude_ft = some ⟨30000, 0⟩ ∧
    (entryAfter wl3 7 mW5).latitude = some ⟨500, 1⟩ ∧
    (entryAfter wl3 7 mW5).longitude = some ⟨-60, 1⟩ := by
  obtain ⟨-, h3, -, -⟩ :=
    claim5_partial_field_failure wl3 7 mW5 3 (by decide) (by decide) (by decide) (by decide)
  obtain ⟨haltn, -, -, hlat, -, hlon⟩ := h3 rfl
  exact ⟨(haltn (by decide)).trans (by decide), hlat _ (by decide), hlon _ (by decide)⟩

/-- A tick with no matching entry sends nothing. -/
theorem xgps_tick_of_find_none (tracked : String) (entries : List Aircraft) (now : Int)
    (hfind : entries.find? (callsignMatches tracked) = none) :
    xgps_tick tracked entries now = none := by
  unfold xgps_tick
  rw [hfind]

/-- A tick with a selected entry is that entry's staleness/completeness
check and send. -/
theorem xgps_tick_of_find_some (tracked : String) (entries : List Aircraft) (now : Int)
    (a : Aircraft) (hfind : entries.find? (callsignMatches tracked) = some a) :
    xgps_tick tracked entries now = xgps_send a now := by
  unfold xgps_tick
  rw [hfind]

/-- C3: a broadcaster tick sends nothing when the selected matching entry
is stale (`last_updated` more than 5 seconds in the past) or incomplete
(any of the five positional fields unknown). -/
theorem claim3_stale_incomplete_skip (tracked : String) (entries : List Aircraft) (now : Int)
    (a : Aircraft)
    (hfind : entries.find? (callsignMatches tracked) = some a)
    (h : 5 < now - a.last_updated ∨ a.latitude = none ∨ a.longitude = none ∨
      a.altitude_ft = none ∨ a.track = none ∨ a.ground_speed_kt = none) :
    xgps_tick tracked entries now = none := by
  rw [xgps_tick_of_find_some tracked entries now a hfind]
  unfold xgps_send
  by_cases hst : 5 < now - a.last_updated
  · rw [if_pos hst]
  · rw [if_neg hst]
    rcases h with h | h | h | h | h | h
    · exact absurd h hst
    all_goals
      rcases hlon : a.longitude with _ | lon <;>
        rcases hlat : a.latitude with _ | lat <;>
          rcases halt : a.altitude_ft with _ | alt <;>
            rcases htrk : a.track with _ | trk <;>
              rcases hgs : a.ground_speed_kt with _ | gs <;>
                simp_all

/-- Witness for C3: a complete but 100-seconds-stale entry is skipped. -/
theorem claim3_stale_incomplete_skip_witness : xgps_tick "UAL123" [eC3] 100 = none :=
  claim3_stale_incomplete_skip "UAL123" [eC3] 100 eC3 (by decide) (Or.inl (by decide))

/-- Characterisation of the pairwise case-insensitive comparison: true
exactly when the two character lists agree after ASCII lowercasing. -/
theorem eqIgnoreCaseList_iff (xs ys : List Char) :
    eqIgnoreCaseList xs ys = true ↔ xs.map asciiLower = ys.map asciiLower := by
  induction xs generalizing ys with
  | nil => cases ys <;> simp [eqIgnoreCaseList]
  | cons c cs ih =>
    cases ys with
    | nil => simp [eqIgnoreCaseList]
    | cons d ds => simp [eqIgnoreCaseList, ih]

/-- C6: broadcast selection matches the tracked callsign against stored
callsigns case-insensitively — an entry whose stored callsign differs
from the tracked value only in ASCII letter case satisfies the selection
predicate, and the scan then selects some matching entry. -/
theorem claim6_case_insensitive_match (tracked : String) (entries : List Aircraft)
    (a : Aircraft) (cs : String) (ha : a ∈ entries) (hcs : a.callsign = some cs)
    (hcase : cs.toList.map asciiLower = tracked.toList.map asciiLower) :
    callsignMatches tracked a = true ∧
      ∃ b, entries.find? (callsignMatches tracked) = some b ∧
        callsignMatches tracked b = true := by
  have hm : callsignMatches tracked a = true := by
    unfold callsignMatches
    rw [hcs]
    show eqIgnoreCaseList cs.toList tracked.toList = true
    exact (eqIgnoreCaseList_iff _ _).mpr hcase
  refine ⟨hm, ?_⟩
  have hs : (entries.find? (callsignMatches tracked)).isSome := by
    rw [List.find?_isSome]
    exact ⟨a, ha, hm⟩
  obtain ⟨b, hb⟩ := Option.isSome_iff_exists.mp hs
  exact ⟨b, hb, List.find?_some hb⟩

/-- Witness for C6: stored `UAL123` matches tracked `ual123`. -/
theorem claim6_case_insensitive_match_witness :
    callsignMatches "ual123" eC6 = true ∧
      (([eC6].find? (callsignMatches "ual123")).isSome = true) := by
  obtain ⟨h1, b, hb, -⟩ :=
    claim6_case_insensitive_match "ual123" [eC6] eC6 "UAL123" (by decide) (by decide) (by decide)
  refine ⟨h1, ?_⟩
  rw [hb]
  rfl

/-- C7: every emitted datagram is `XGPS` followed by the fixed device-id
literal, then comma-separated longitude, latitude, altitude in meters
(1 decimal), track (2 decimals) and speed in meters per second
(1 decimal); altitude in meters is the stored feet times 0.3048 and speed
in m/s the stored knots times 0.514444, with the claim's two concrete
conversion instances inside their tolerances. -/
theorem claim7_payload_format :
    (∀ tracked entries now p, xgps_tick tracked entries now = some p →
      ∃ a lon lat alt trk gs,
        entries.find? (callsignMatches tracked) = some a ∧
        a.longitude = some lon ∧ a.latitude = some lat ∧ a.altitude_ft = some alt ∧
        a.track = some trk ∧ a.ground_speed_kt = some gs ∧
        p = "XGPS" ++ deviceId ++ "," ++ fmtF64 lon ++ "," ++ fmtF64 lat ++ "," ++
          fmtFixed 1 (ftToM alt) ++ "," ++ fmtFixed 2 trk ++ "," ++ fmtFixed 1 (ktToMs gs)) ∧
    deviceId = "adsb_xgps" ∧
    (∀ x : Dec, (ftToM x).toQ = x.toQ * (3048 / 10000)) ∧
    (∀ x : Dec, (ktToMs x).toQ = x.toQ * (514444 / 1000000)) ∧
    |(ftToM ⟨10000, 0⟩).toQ - 3048| < 1 / 100 ∧
    |(ktToMs ⟨100, 0⟩).toQ - 514444 / 10000| < 1 / 1000 := by
  refine ⟨?_, rfl, ?_, ?_, ?_, ?_⟩
  · intro tracked entries now p hp
    cases hfind : entries.find? (callsignMatches tracked) with
    | none =>
      rw [xgps_tick_of_find_none tracked entries now hfind] at hp
      exact absurd hp (by simp)
    | some a =>
      rw [xgps_tick_of_find_some tracked entries now a hfind] at hp
      unfold xgps_send at hp
      by_cases hst : 5 < now - a.last_updated
      · rw [if_pos hst] at hp
        exact absurd hp (by simp)
      · rw [if_neg hst] at hp
        rcases hlon : a.longitude with _ | lon <;>
          rcases hlat : a.latitude with _ | lat <;>
            rcases halt : a.altitude_ft with _ | alt <;>
              rcases htrk : a.track with _ | trk <;>
                rcases hgs : a.ground_speed_kt with _ | gs <;>
                  rw [hlon, hlat, halt, htrk, hgs] at hp <;>
                    first
                      | exact ⟨a, lon, lat, alt, trk, gs, rfl, hlon, hlat, halt, htrk, hgs,
                          (Option.some.inj hp).symm⟩
                      | simp at hp
  · intro x
    show ((x.num * 3048 : ℤ) : ℚ) / 10 ^ (x.exp + 4) = ((x.num : ℚ) / 10 ^ x.exp) * (3048 / 10000)
    push_cast
    rw [pow_add, div_mul_div_comm]
    norm_num
  · intro x
    show ((x.num * 514444 : ℤ) : ℚ) / 10 ^ (x.exp + 6) =
      ((x.num : ℚ) / 10 ^ x.exp) * (514444 / 1000000)
    push_cast
    rw [pow_add, div_mul_div_comm]
    norm_num
  · show |((10000 * 3048 : ℤ) : ℚ) / 10 ^ (0 + 4) - 3048| < 1 / 100
    norm_num
  · show |((100 * 514444 : ℤ) : ℚ) / 10 ^ (0 + 6) - 514444 / 10000| < 1 / 1000
    norm_num

/-- Witness for C7: the concrete emitted payload for a fresh complete
entry, equated with the formatted conversion of its stored fields. -/
theorem claim7_payload_format_witness :
    xgps_tick "UAL123" [eC7] 100 = some pC7 ∧
    pC7 = "XGPS" ++ deviceId ++ "," ++ fmtF64 ⟨-8011, 2⟩ ++ "," ++ fmtF64 ⟨3455, 2⟩ ++ "," ++
      fmtFixed 1 (ftToM ⟨10000, 0⟩) ++ "," ++ fmtFixed 2 ⟨35905, 2⟩ ++ "," ++
      fmtFixed 1 (ktToMs ⟨100, 0⟩) := by
  have h : xgps_tick "UAL123" [eC7] 100 = some pC7 := by decide
  refine ⟨h, ?_⟩
  obtain ⟨a, lon, lat, alt, trk, gs, hfind, hlon, hlat, halt, htrk, hgs, hp⟩ :=
    claim7_payload_format.1 "UAL123" [eC7] 100 pC7 h
  have ha : a = eC7 := by
    have h2 : [eC7].find? (callsignMatches "UAL123") = some eC7 := by decide
    rw [h2] at hfind
    exact (Option.some.inj hfind).symm
  subst ha
  have e1 : lon = ⟨-8011, 2⟩ := by
    have hx : eC7.longitude = some (⟨-8011, 2⟩ : Dec) := by decide
    rw [hx] at hlon
    exact (Option.some.inj hlon).symm
  have e2 : lat = ⟨3455, 2⟩ := by
    have hx : eC7.latitude = some (⟨3455, 2⟩ : Dec) := by decide
    rw [hx] at hlat
    exact (Option.some.inj hlat).symm
  have e3 : alt = ⟨10000, 0⟩ := by
    have hx : eC7.altitude_ft = some (⟨10000, 0⟩ : Dec) := by decide
    rw [hx] at halt
    exact (Option.some.inj halt).symm
  have e4 : trk = ⟨35905, 2⟩ := by
    have hx : eC7.track = some (⟨35905, 2⟩ : Dec) := by decide
    rw [hx] at htrk
    exact (Option.some.inj htrk).symm
  have e5 : gs = ⟨100, 0⟩ := by
    have hx : eC7.ground_speed_kt = some (⟨100, 0⟩ : Dec) := by decide
    rw [hx] at hgs
    exact (Option.some.inj hgs).symm
  subst e1 e2 e3 e4 e5
  exact hp

/-- Restamping an entry does not change its data fields. -/
theorem dataFields_withTime (a : Aircraft) (t : Int) :
    dataFields { a with last_updated := t } = dataFields a := rfl

/-- Applying the same record's dispatch twice yields the same data fields
as applying it once. -/
theorem applyMsg_data_idem (k : Nat) (fields : List String) (a : Aircraft) (t : Int) :
    dataFields (applyMsg k fields { applyMsg k fields a with last_updated := t }) =
      dataFields (applyMsg k fields a) := by
  unfold applyMsg
  split_ifs <;> simp [dataFields, setNum_setNum]

/-- C8: applying the same record twice to a registry gives, at every key,
the same data fields as applying it once — only `last_updated` may
differ. -/
theorem claim8_idempotent (line : String) (now1 now2 : Int) (m : AircraftMap) (key : String) :
    Option.map dataFields (parse_sbs_line line now2 (parse_sbs_line line now1 m) key) =
      Option.map dataFields (parse_sbs_line line now1 m key) := by
  by_cases hbad : (splitFields line).length < 22 ∨ (splitFields line).getD 0 "" ≠ "MSG" ∨
      parseU8 (fieldAt line 1) = none ∨ fieldAt line 4 = ""
  · rw [parse_noop line now2 (parse_sbs_line line now1 m) hbad]
  · push_neg at hbad
    obtain ⟨h22, hmsg, hpk, hid⟩ := hbad
    obtain ⟨k, hk⟩ := Option.ne_none_iff_exists'.mp hpk
    by_cases hkey : key = fieldAt line 4
    · subst hkey
      have A1 := parse_at_id line now1 m k (not_lt.mpr h22) hmsg hk hid
      have A2 := parse_at_id line now2 (parse_sbs_line line now1 m) k (not_lt.mpr h22) hmsg hk hid
      rw [A2, A1]
      simp only [Option.getD_some, Option.map_some']
      have h1 := dataFields_withTime (applyMsg k (splitFields line)
        { applyMsg k (splitFields line) ((m (fieldAt line 4)).getD (newAircraft now1)) with
          last_updated := now1 }) now2
      have h2 := applyMsg_data_idem k (splitFields line)
        ((m (fieldAt line 4)).getD (newAircraft now1)) now1
      have h3 := dataFields_withTime
        (applyMsg k (splitFields line) ((m (fieldAt line 4)).getD (newAircraft now1))) now1
      exact congrArg some (h1.trans (h2.trans h3.symm))
    · rw [parse_frame line now2 (parse_sbs_line line now1 m) k (not_lt.mpr h22) hmsg hk hid key hkey]

end AdsbXgps
